import Mathlib

namespace SnowMigrate

/-! Shallow embedding of the SnowMigrate repository
(SnowflakeNative_MigrationCalculator): the effort-estimation logic of
snowpark_logic/common/effort_calculator_logic.py, the connection validation
and object counting of snowpark_logic/common/db_connector_utils.py, and the
input handling of the stored procedures in snowpark_logic/procedures/. -/

/-- EFFORT_MULTIPLIERS from effort_calculator_logic.py lines 4-10: the fixed
hours-per-object dict; `none` models an object type absent from the dict. -/
def EFFORT_MULTIPLIERS (obj_type : String) : Option Int :=
  if obj_type = "tables" then some 2
  else if obj_type = "views" then some 1
  else if obj_type = "procedures" then some 4
  else if obj_type = "functions" then some 3
  else none

/-- COMPLEXITY_THRESHOLDS from effort_calculator_logic.py lines 12-16,
modelled as a lookup over the dict's three keys (only the Medium and High
entries are ever read by the source). -/
def COMPLEXITY_THRESHOLDS (tier : String) : Int :=
  if tier = "Low" then 50
  else if tier = "Medium" then 100
  else if tier = "High" then 200
  else 0

/-- One value of the object_efforts dict built by calculate_migration_effort
(lines 191-195 of effort_calculator_logic.py). -/
structure ObjectEffort where
  count : Int
  hours_per_object : Int
  total_hours : Int
deriving Repr, DecidableEq

/-- The loop body of calculate_migration_effort lines 188-196: for an entry
(obj_type, count) of the input dict, when obj_type is in EFFORT_MULTIPLIERS
record its effort and add it to total_hours, otherwise skip the entry.
The accumulator is (object_efforts so far, total_hours so far); dict insertion
is modelled as appending, since a Python dict iterates distinct keys. -/
def effortStep (acc : List (String × ObjectEffort) × Int) (p : String × Int) :
    List (String × ObjectEffort) × Int :=
  match EFFORT_MULTIPLIERS p.1 with
  | some m => (acc.1 ++ [(p.1, ⟨p.2, m, p.2 * m⟩)], acc.2 + p.2 * m)
  | none => acc

/-- The complexity classification inlined at lines 198-202 of
effort_calculator_logic.py: High-to-low chain of >= tests against
COMPLEXITY_THRESHOLDS. -/
def complexityFor (total_hours : Int) : String :=
  if total_hours ≥ COMPLEXITY_THRESHOLDS "High" then "High"
  else if total_hours ≥ COMPLEXITY_THRESHOLDS "Medium" then "Medium"
  else "Low"

/-- The five baseline risks of generate_risks (lines 84-90). -/
def baselineRisks : List String :=
  ["Data loss during migration",
   "Potential downtime during cutover",
   "Performance impact during migration",
   "Data type compatibility issues",
   "Function and procedure syntax differences"]

/-- The source-kind-specific risks appended by generate_risks (lines 92-121);
unrecognized kinds add nothing. -/
def sourceSpecificRisks (source_type : String) : List String :=
  if source_type = "oracle" then
    ["PL/SQL to Snowflake SQL conversion complexity",
     "Oracle-specific features (e.g., AQ, Spatial) may not have direct equivalents",
     "Sequence and identity column handling differences"]
  else if source_type = "sqlserver" then
    ["T-SQL to Snowflake SQL conversion complexity",
     "SQL Server-specific features (e.g., linked servers, Service Broker) may not have direct equivalents",
     "Identity column and sequence handling differences"]
  else if source_type = "postgresql" then
    ["PostgreSQL-specific data types (e.g., PostGIS) may need complex conversion or workarounds",
     "PL/pgSQL to Snowflake SQL/JavaScript UDF conversion",
     "Extension and custom function compatibility and rewrite effort"]
  else if source_type = "teradata" then
    ["BTEQ/TPT script conversion to SnowSQL/Python scripts or ETL tools.",
     "Teradata-specific SQL extensions and utilities (e.g., FastLoad, MultiLoad) require redesign.",
     "Handling of Teradata-specific data types and indexing strategies (e.g., PPI)."]
  else if source_type = "databricks" then
    ["Converting Delta Lake specific features (e.g., time travel, MERGE on Delta) to Snowflake equivalents.",
     "Rewriting Spark SQL/Python/Scala UDFs and jobs for Snowflake (SQL, Snowpark, or external compute).",
     "Managing data consistency and schema evolution differences between Delta Lake and Snowflake tables."]
  else []

/-- The three risks appended when complexity is High (lines 123-128). -/
def highComplexityRisks : List String :=
  ["Extended migration timeline and higher resource allocation",
   "Increased complexity in data validation and reconciliation",
   "More intricate rollback procedures and contingency planning"]

/-- generate_risks from effort_calculator_logic.py lines 82-129: baseline,
then source-specific extension, then the High-complexity extension.
target_type is accepted and ignored, as in the source. -/
def generate_risks (source_type target_type complexity : String) : List String :=
  baselineRisks ++ sourceSpecificRisks source_type ++
    (if complexity = "High" then highComplexityRisks else [])

/-- The five baseline recommendations of generate_recommendations
(lines 133-139). -/
def baselineRecommendations : List String :=
  ["Create comprehensive backup of source data before migration begins.",
   "Implement a dedicated testing environment for thorough migration validation.",
   "Document all custom functions, procedures, and complex business logic from the source.",
   "Plan for an adequate downtime window for the final cutover, or explore phased migration.",
   "Develop and test a detailed rollback plan in case of critical issues."]

/-- The source-kind-specific recommendations (lines 141-170); unrecognized
kinds add nothing. -/
def sourceSpecificRecommendations (source_type : String) : List String :=
  if source_type = "oracle" then
    ["Utilize schema conversion tools and thoroughly review Oracle-specific features for Snowflake compatibility.",
     "Focus on PL/SQL to Snowflake SQL/JavaScript UDF conversion strategy and testing.",
     "Address sequence generation and identity column behavior early in the planning phase."]
  else if source_type = "sqlserver" then
    ["Analyze T-SQL code for constructs that need rewriting for Snowflake SQL.",
     "Plan for handling SQL Server Agent jobs and SSIS packages, potentially migrating to Snowflake tasks or other ETL tools.",
     "Document and test identity column and sequence migration strategies."]
  else if source_type = "postgresql" then
    ["Carefully map PostgreSQL data types and extensions to Snowflake equivalents or alternatives.",
     "Develop a strategy for converting PL/pgSQL functions and procedures.",
     "Assess and plan for migration of custom functions and any heavily used PostgreSQL extensions."]
  else if source_type = "teradata" then
    ["Plan for Teradata script (BTEQ, FastLoad, etc.) conversion or replacement with Snowflake-compatible tools.",
     "Analyze Teradata SQL for proprietary features and plan for rewrite.",
     "Develop a data migration strategy focusing on efficient export from Teradata and import into Snowflake (e.g., using Snowpipe or COPY command)."]
  else if source_type = "databricks" then
    ["Identify and plan for migrating Delta Lake table features and optimizations to Snowflake.",
     "Assess Spark jobs for logic that can be translated to Snowpark or Snowflake SQL, or determine if external processing is still needed.",
     "Define a strategy for data extraction from Delta Lake (e.g., Parquet export) and ingestion into Snowflake."]
  else []

/-- The three recommendations appended when complexity is High
(lines 172-177). -/
def highComplexityRecommendations : List String :=
  ["Strongly consider a phased migration approach, starting with less critical workloads.",
   "Implement comprehensive automated testing and data validation suites.",
   "Establish clear communication channels and a dedicated migration team for complex projects."]

/-- generate_recommendations from effort_calculator_logic.py lines 131-178. -/
def generate_recommendations (source_type target_type complexity : String) : List String :=
  baselineRecommendations ++ sourceSpecificRecommendations source_type ++
    (if complexity = "High" then highComplexityRecommendations else [])

/-- The common_snowflake_benefits list of generate_business_value_add
(lines 22-30). -/
def common_snowflake_benefits : List String :=
  ["Enhanced Scalability & Performance: Independently scale compute and storage for optimal performance with any data volume, potentially reducing query times by X-Y% for key workloads.",
   "Simplified Data Management: Consolidate data, streamline administration, and improve data governance, possibly reducing DBA overhead by Z hours/month.",
   "Faster Analytics & Insights: Accelerate data-driven decisions with high-performance SQL queries, enabling new analytical use cases previously unfeasible.",
   "Direct Cost Savings (TCO): Potential for lower Total Cost of Ownership through pay-per-second compute and separate competitive storage pricing. Estimate potential savings of A-B% annually compared to current infrastructure/licensing.",
   "Optimized Resource Usage: Eliminate over-provisioning with precise resource allocation, reducing compute and storage wastage, potentially reclaiming C-D% of current spend.",
   "Seamless Data Sharing: Securely share live data internally and externally without ETL, fostering collaboration and new data monetization opportunities.",
   "Reduced Operational Overhead: Fully managed SaaS minimizes administrative tasks (patching, upgrades, backups), freeing up IT resources for value-added activities, contributing to E-F% operational cost reduction."]

/-- The source_specific_benefits selection of generate_business_value_add
(lines 32-74): six recognized kinds, and a generic two-entry list for every
other source kind (the else branch). -/
def source_specific_benefits (source_type : String) : List String :=
  if source_type = "oracle" then
    ["Significant reduction in licensing costs: Transition from Oracle's expensive proprietary licenses (potentially saving G-H% of annual Oracle spend) and complex audit processes.",
     "Move away from complex and costly Oracle-specific features like RAC towards Snowflake's simpler, elastic architecture, reducing specialized skill dependency.",
     "Improved agility and faster time-to-market for new data initiatives by leveraging Snowflake's cloud-native capabilities and CI/CD-friendly environment."]
  else if source_type = "sqlserver" then
    ["Eliminate SQL Server licensing costs (especially for Enterprise features) and reduce dependency on Microsoft-specific ecosystem, leading to I-J% license cost savings.",
     "Transition from potentially restrictive on-premises hardware to Snowflake's flexible cloud infrastructure, reducing capital expenditure (CapEx).",
     "Gain access to broader data integration and analytics capabilities beyond the traditional SQL Server stack, supporting modern data science and ML workloads."]
  else if source_type = "postgresql" then
    ["Achieve higher levels of scalability and concurrency often challenging with self-managed or even some managed PostgreSQL instances, supporting K-L times more concurrent users/queries.",
     "Reduce operational burden of managing, tuning, vacuuming, and upgrading PostgreSQL databases, potentially saving M-N hours/week of specialized DBA time.",
     "Leverage Snowflake's robust security and governance features (e.g., dynamic data masking, row-level security out-of-the-box) which may require more manual setup or commercial extensions in PostgreSQL, potentially reducing compliance costs by O-P%."]
  else if source_type = "teradata" then
    ["Modernize from a legacy, often expensive, Teradata appliance to a flexible cloud-native architecture, avoiding costly hardware refresh cycles (saving Q-R $M).",
     "Significant cost savings by moving away from Teradata's hardware and software licensing model, potentially reducing annual spend by S-T%.",
     "Improve data democratizaion and support for diverse workloads (Data Engineering, Data Science, Ad-hoc analysis) beyond traditional BI, unlocking new revenue streams or operational efficiencies of U-V%."]
  else if source_type = "databricks" then
    ["Simplify data warehousing and BI workloads with Snowflake's optimized SQL engine and user-friendly interface for analysts, potentially improving analyst productivity by W-X%.",
     "Potentially reduce TCO by consolidating data lake and data warehouse capabilities within Snowflake where appropriate, leveraging its storage and compute pricing models, potentially saving Y-Z% on specific workloads.",
     "Benefit from Snowflake's strong governance, security (e.g., granular access controls, end-to-end encryption), and data sharing features for structured and semi-structured data, simplifying compliance."]
  else if source_type = "snowflake" then
    ["Consolidate multiple Snowflake accounts for better cost management (e.g., volume discounts, optimized warehouse usage) and centralized governance, potentially reducing overall Snowflake spend by AA-BB%.",
     "Optimize existing Snowflake workloads by re-evaluating warehouse sizing, query performance, and data clustering strategies, improving cost-efficiency by CC-DD% for targeted query patterns.",
     "Leverage latest Snowflake features (e.g., Snowpark, Unistore, Native Apps) and best practices for enhanced performance and new capabilities in the target account."]
  else
    ["Modernize your data stack by moving from a potentially end-of-life or unsupported legacy system to a leading cloud data platform, reducing risk and improving access to innovation.",
     "Improve data accessibility and self-service capabilities for business users, potentially reducing report generation time by EE-FF%."]

/-- generate_business_value_add from effort_calculator_logic.py lines 20-80:
the first 3 source-specific benefits, then the common benefits not literally
present in the source-specific list, capped at 4 (line 78). -/
def generate_business_value_add (source_type : String) : List String :=
  (source_specific_benefits source_type).take 3 ++
    (common_snowflake_benefits.filter
      (fun b => decide (b ∉ source_specific_benefits source_type))).take 4

/-- The dict returned by calculate_migration_effort (lines 208-215). -/
structure EffortEstimate where
  total_hours : Int
  complexity : String
  object_efforts : List (String × ObjectEffort)
  risks : List String
  recommendations : List String
  business_value_add : List String
deriving Repr, DecidableEq

/-- calculate_migration_effort from effort_calculator_logic.py lines 180-215.
The input dict is modelled as an association list iterated in order. -/
def calculate_migration_effort (source_type target_type : String)
    (objects : List (String × Int)) : EffortEstimate :=
  let acc := objects.foldl effortStep ([], 0)
  let complexity := complexityFor acc.2
  { total_hours := acc.2
    complexity := complexity
    object_efforts := acc.1
    risks := generate_risks source_type target_type complexity
    recommendations := generate_recommendations source_type target_type complexity
    business_value_add := generate_business_value_add source_type }

/-- Python truthiness of a string: None and the empty string are falsy; this
embedding collapses None into the empty string, which is sound because the
source only ever branches on truthiness of these values and interpolates them
into queries when truthy. -/
def truthy (s : String) : Bool := s != ""

/-- Python truthiness of an optional string (a dict .get result). -/
def truthyO : Option String → Bool
  | none => false
  | some s => truthy s

/-- The counts dict of fetch_object_counts (db_connector_utils.py line 367). -/
structure Counts where
  tables : Int
  views : Int
  procedures : Int
  functions : Int
deriving Repr, DecidableEq

/-- The all-zero counts dict the counter starts from. -/
def zeroCounts : Counts := ⟨0, 0, 0, 0⟩

/-- Field-wise addition of two counts dicts (the += aggregation at
db_connector_utils.py lines 442-445). -/
def addCounts (a b : Counts) : Counts :=
  ⟨a.tables + b.tables, a.views + b.views,
   a.procedures + b.procedures, a.functions + b.functions⟩

/-- Field-wise sum of a list of counts dicts. -/
def sumCounts (l : List Counts) : Counts := l.foldr addCounts zeroCounts

/-- One entry of schemas_summary: the source flattens name and the four
counts into one dict (lines 436-439 and the analogous appends); the counts
are kept as a nested record here. -/
structure SchemaSummary where
  name : String
  counts : Counts
deriving Repr, DecidableEq

/-- The dict returned by fetch_object_counts: total_objects, schemas_summary
and the optional error key. -/
structure FetchResult where
  total_objects : Counts
  schemas_summary : List SchemaSummary
  error : Option String
deriving Repr, DecidableEq

/-- The catalog COUNT(*) queries issued by fetch_object_counts, one
constructor per f-string in the source, carrying the interpolated
schema/database/owner/catalog name:
pg* are the information_schema queries of the postgresql branch
(lines 419-434), td* the DBC.TablesV queries of the teradata branch
(lines 458-480), dbx* the information_schema queries of the databricks
branch (lines 504-523), ora* the ALL_TABLES/ALL_VIEWS/ALL_PROCEDURES
queries of the oracle branch (lines 553-572), sf* the catalog-qualified
INFORMATION_SCHEMA queries of the snowflake branch (lines 592-613, with the
optional schema filter). -/
inductive CountQuery where
  | pgTables (schema : String)
  | pgViews (schema : String)
  | pgFunctions (schema : String)
  | pgProcedures (schema : String)
  | tdTables (database : String)
  | tdViews (database : String)
  | tdProcedures (database : String)
  | tdFunctions (database : String)
  | dbxTables (schema : String)
  | dbxViews (schema : String)
  | dbxFunctions (schema : String)
  | dbxProcedures (schema : String)
  | oraTables (owner : String)
  | oraViews (owner : String)
  | oraProcedures (owner : String)
  | oraFunctions (owner : String)
  | sfTables (catalog : String) (schema : Option String)
  | sfViews (catalog : String) (schema : Option String)
  | sfProcedures (catalog : String) (schema : Option String)
  | sfFunctions (catalog : String) (schema : Option String)
deriving Repr, DecidableEq

/-- The live database connection as the counter sees it: each
cursor.execute/fetch pair either yields a value or raises a driver error
(modelled as the error string). schemaList is the postgresql schema
enumeration query of lines 397-403 (its argument is the lowered schema-name
filter, none for the unfiltered query); currentSchema is the oracle
SYS_CONTEXT query of line 537; countQuery covers every COUNT(*) query. -/
structure DBConn where
  schemaList : Option String → Except String (List String)
  currentSchema : Except String (Option String)
  countQuery : CountQuery → Except String Int

/-- Runs a branch's four COUNT(*) queries in source order, threading the
partially filled counts dict exactly as the source mutates counts field by
field; the first failing query stops the run and keeps the counts filled so
far (the except handlers at db_connector_utils.py lines 629-635). -/
def runCountQueries (db : DBConn) :
    List (CountQuery × (Counts → Int → Counts)) → Counts → Counts × Option String
  | [], c => (c, none)
  | (q, upd) :: rest, c =>
    match db.countQuery q with
    | .error e => (c, some e)
    | .ok n => runCountQueries db rest (upd c n)

/-- The four information_schema count queries the postgresql branch runs for
one schema (lines 419-434), in source order (tables, views, functions,
procedures), into a fresh schema_counts dict. -/
def pgSchemaCounts (db : DBConn) (s : String) : Counts × Option String :=
  runCountQueries db
    [(.pgTables s, fun c n => { c with tables := n }),
     (.pgViews s, fun c n => { c with views := n }),
     (.pgFunctions s, fun c n => { c with functions := n }),
     (.pgProcedures s, fun c n => { c with procedures := n })] zeroCounts

/-- The postgresql per-schema loop of lines 415-447: for each schema run the
four count queries, append the schema summary, and either aggregate into
the running totals or overwrite them, depending on the aggregate condition
computed by the caller; the first driver error returns the totals and
summaries accumulated so far with the error. -/
def pgLoop (db : DBConn) (aggregate : Bool) :
    List String → Counts → List SchemaSummary → FetchResult
  | [], counts, summaries => ⟨counts, summaries, none⟩
  | s :: rest, counts, summaries =>
    match pgSchemaCounts db s with
    | (_, some e) => ⟨counts, summaries, some e⟩
    | (sc, none) =>
      pgLoop db aggregate rest (if aggregate then addCounts counts sc else sc)
        (summaries ++ [⟨s, sc⟩])

/-- The schema enumeration at the top of the postgresql branch (lines
397-403): filtered by the lowered schema name when one was given. -/
def pgSchemasToQuery (db : DBConn) (schema_name : String) :
    Except String (List String) :=
  db.schemaList (if truthy schema_name then some schema_name.toLower else none)

/-- The postgresql branch of fetch_object_counts (lines 394-447): enumerate
the schemas to query, return zero counts when none were found, otherwise
loop; the totals aggregate when no schema was named or more than one schema
came back (line 441), else they are the single schema's counts (line 447). -/
def fetchPg (db : DBConn) (schema_name : String) : FetchResult :=
  match pgSchemasToQuery db schema_name with
  | .error e => ⟨zeroCounts, [], some e⟩
  | .ok schemas_to_query =>
    if schemas_to_query.isEmpty then ⟨zeroCounts, [], none⟩
    else
      pgLoop db (!truthy schema_name || decide (1 < schemas_to_query.length))
        schemas_to_query zeroCounts []

/-- target_database_teradata (line 373): the schema name when truthy, else
the database name. The databricks target (line 374) is computed the same
way. -/
def teradataTarget (db_name schema_name : String) : String :=
  if truthy schema_name then schema_name else db_name

/-- The four DBC.TablesV counts of the teradata branch (lines 458-481), in
source order, mutating the counts dict field by field. -/
def tdCounts (db : DBConn) (target : String) : Counts × Option String :=
  runCountQueries db
    [(.tdTables target, fun c n => { c with tables := n }),
     (.tdViews target, fun c n => { c with views := n }),
     (.tdProcedures target, fun c n => { c with procedures := n }),
     (.tdFunctions target, fun c n => { c with functions := n })] zeroCounts

/-- The teradata branch (lines 449-489): a missing target is an error; four
DBC.TablesV counts, then a single summary entry named after the target. -/
def fetchTeradata (db : DBConn) (db_name schema_name : String) : FetchResult :=
  if !truthy (teradataTarget db_name schema_name) then
    ⟨zeroCounts, [], some "Database/Schema name is required for Teradata."⟩
  else
    match tdCounts db (teradataTarget db_name schema_name) with
    | (c, some e) => ⟨c, [], some e⟩
    | (c, none) => ⟨c, [⟨teradataTarget db_name schema_name, c⟩], none⟩

/-- The four information_schema counts of the databricks branch (lines
504-523), in source order (tables, views, functions, procedures). -/
def dbxCounts (db : DBConn) (target : String) : Counts × Option String :=
  runCountQueries db
    [(.dbxTables target, fun c n => { c with tables := n }),
     (.dbxViews target, fun c n => { c with views := n }),
     (.dbxFunctions target, fun c n => { c with functions := n }),
     (.dbxProcedures target, fun c n => { c with procedures := n })] zeroCounts

/-- The databricks branch (lines 491-529): same target rule as teradata,
four counts, one summary entry. -/
def fetchDatabricks (db : DBConn) (db_name schema_name : String) : FetchResult :=
  if !truthy (teradataTarget db_name schema_name) then
    ⟨zeroCounts, [], some "Schema (Database) name is required for Databricks."⟩
  else
    match dbxCounts db (teradataTarget db_name schema_name) with
    | (c, some e) => ⟨c, [], some e⟩
    | (c, none) => ⟨c, [⟨teradataTarget db_name schema_name, c⟩], none⟩

/-- target_schema_oracle (lines 386 and 534-545): the uppercased schema
name, or when absent the uppercased current schema fetched via SYS_CONTEXT
(a driver error there is caught locally, lines 544-545, and leaves the
owner undetermined). -/
def oracleTarget (db : DBConn) (schema_name : String) : Option String :=
  if truthy schema_name then some schema_name.toUpper
  else
    match db.currentSchema with
    | .error _ => none
    | .ok none => none
    | .ok (some cs) => if truthy cs then some cs.toUpper else none

/-- The four ALL_TABLES/ALL_VIEWS/ALL_PROCEDURES counts of the oracle
branch (lines 553-572). -/
def oraCounts (db : DBConn) (owner : String) : Counts × Option String :=
  runCountQueries db
    [(.oraTables owner, fun c n => { c with tables := n }),
     (.oraViews owner, fun c n => { c with views := n }),
     (.oraProcedures owner, fun c n => { c with procedures := n }),
     (.oraFunctions owner, fun c n => { c with functions := n })] zeroCounts

/-- The oracle branch (lines 531-581): an undetermined owner is an error
result (lines 547-549); otherwise four ALL_* counts and one summary
entry. -/
def fetchOracle (db : DBConn) (schema_name : String) : FetchResult :=
  match oracleTarget db schema_name with
  | none =>
    ⟨zeroCounts, [],
     some "Schema name required for Oracle object counting and could not be derived."⟩
  | some owner =>
    match oraCounts db owner with
    | (c, some e) => ⟨c, [], some e⟩
    | (c, none) => ⟨c, [⟨owner, c⟩], none⟩

/-- target_schema_snowflake (line 390): the uppercased schema name when one
was given. -/
def sfSchemaFilter (schema_name : String) : Option String :=
  if truthy schema_name then some schema_name.toUpper else none

/-- The summary name of the snowflake branch (line 616). -/
def sfSummaryName (catalog : String) (schema : Option String) : String :=
  catalog ++ (match schema with
    | some s => "." ++ s
    | none => " (all schemas)")

/-- The four catalog-qualified INFORMATION_SCHEMA counts of the snowflake
branch (lines 592-613). -/
def sfCounts (db : DBConn) (catalog : String) (schema : Option String) :
    Counts × Option String :=
  runCountQueries db
    [(.sfTables catalog schema, fun c n => { c with tables := n }),
     (.sfViews catalog schema, fun c n => { c with views := n }),
     (.sfProcedures catalog schema, fun c n => { c with procedures := n }),
     (.sfFunctions catalog schema, fun c n => { c with functions := n })] zeroCounts

/-- The snowflake-as-source branch (lines 583-620): the catalog is the
database name (required); four counts, one summary entry. -/
def fetchSnowflake (db : DBConn) (db_name schema_name : String) : FetchResult :=
  if !truthy db_name then
    ⟨zeroCounts, [], some "Database (Catalog) name required for Snowflake."⟩
  else
    match sfCounts db db_name (sfSchemaFilter schema_name) with
    | (c, some e) => ⟨c, [], some e⟩
    | (c, none) => ⟨c, [⟨sfSummaryName db_name (sfSchemaFilter schema_name), c⟩], none⟩

/-- fetch_object_counts from db_connector_utils.py lines 349-638: the null
connection returns the fixed mock counts with an empty summary (lines
362-365); otherwise dispatch on db_type, with unknown kinds producing the
not-implemented error and zero counts (lines 622-624). -/
def fetch_object_counts (connection : Option DBConn)
    (db_type db_name schema_name : String) : FetchResult :=
  match connection with
  | none => ⟨⟨10, 5, 2, 3⟩, [], none⟩
  | some db =>
    if db_type = "postgresql" then fetchPg db schema_name
    else if db_type = "teradata" then fetchTeradata db db_name schema_name
    else if db_type = "databricks" then fetchDatabricks db db_name schema_name
    else if db_type = "oracle" then fetchOracle db schema_name
    else if db_type = "snowflake" then fetchSnowflake db db_name schema_name
    else ⟨zeroCounts, [],
          some ("Object counting not implemented for " ++ db_type ++ ".")⟩

/-- The JSON string analyze_database_sp hands back: either the serialized
analysis dict or a dict holding only an error message. -/
inductive AnalyzeOutput where
  | ok (r : FetchResult)
  | err (msg : String)
deriving Repr, DecidableEq

/-- The error handling of analyze_database_sp.py lines 81-83: a fetch result
carrying an error key is replaced by an error-only response; only an
error-free result is serialized whole. -/
def analyzeHandleCounts (r : FetchResult) : AnalyzeOutput :=
  match r.error with
  | some e => .err ("Error fetching object counts: " ++ e)
  | none => .ok r

/-- The credentials dict returned by _get_secret_credentials, as read by
get_source_db_connection (db_connector_utils.py lines 183-185 and 205). -/
structure Credentials where
  username : Option String
  password : Option String
  token : Option String
  account : Option String
deriving Repr, DecidableEq

/-- The connection_params dict handed to get_source_db_connection, with the
keys the function reads (lines 175-207 and the per-driver branches). -/
structure ConnParams where
  secret_name : Option String
  host : Option String
  port : Option String
  database : Option String
  http_path : Option String
  account : Option String
  schema : Option String
  warehouse : Option String
  role : Option String
deriving Repr, DecidableEq

/-- Where get_source_db_connection exits: credFail is the return None after
a credential ValueError (lines 179-181), portFail the return None on an
unparsable port (lines 192-197), validationFail every return None of the
parameter-validation block (lines 199-214, plus the oracle service-name
recheck at lines 250-252), attemptConnect the fall-through into the driver
connect call of the named kind, unsupported the final else (lines 343-345). -/
inductive ConnOutcome where
  | credFail
  | portFail
  | validationFail
  | attemptConnect (kind : String)
  | unsupported
deriving Repr, DecidableEq

/-- get_source_db_connection from db_connector_utils.py lines 160-347,
embedded up to the driver connect call: credential retrieval is modelled by
its outcome (the credsResult argument), and each driver branch is cut at the
point the driver connect would run, since the claims under study concern
validation, not driver behavior. int(port_str) is modelled by
String.toInt?. -/
def get_source_db_connection (credsResult : Except String Credentials)
    (db_type : String) (p : ConnParams) : ConnOutcome :=
  match credsResult with
  | .error _ => .credFail
  | .ok credentials =>
    let user := credentials.username
    let password := credentials.password
    let databricks_token := credentials.token
    let host := p.host
    let port_str := p.port
    let database_name := p.database
    if truthyO port_str && ((port_str.getD "").toInt?).isNone then .portFail
    else if db_type = "databricks" then
      if !(truthyO databricks_token && truthyO host && truthyO p.http_path) then
        .validationFail
      else .attemptConnect "databricks"
    else if db_type = "snowflake" then
      let sf_account := if truthyO credentials.account then credentials.account else p.account
      if !(truthyO user && truthyO password && truthyO sf_account && truthyO database_name) then
        .validationFail
      else .attemptConnect "snowflake"
    else if !(truthyO user && truthyO password && truthyO host && truthyO database_name) then
      .validationFail
    else if db_type = "postgresql" then .attemptConnect "postgresql"
    else if db_type = "oracle" then
      if !truthyO database_name then .validationFail else .attemptConnect "oracle"
    else if db_type = "teradata" then .attemptConnect "teradata"
    else .unsupported

/-- Required-field check exactly as claim C8 words it (a spec-side
definition, to be compared with the code embedding): databricks needs
http_path and a token; snowflake as a source needs an account (from the
credentials or the params) and a database name; every other kind needs
username, password, host and database name. -/
def claimRequiredFieldsOk (db_type : String) (credentials : Credentials)
    (p : ConnParams) : Bool :=
  if db_type = "databricks" then
    truthyO p.http_path && truthyO credentials.token
  else if db_type = "snowflake" then
    truthyO (if truthyO credentials.account then credentials.account else p.account) &&
      truthyO p.database
  else
    truthyO credentials.username && truthyO credentials.password &&
      truthyO p.host && truthyO p.database

/-- Required-field check as the code actually enforces it: like the claim's,
but databricks additionally needs a host, and snowflake as a source
additionally needs username and password. -/
def amendedRequiredFieldsOk (db_type : String) (credentials : Credentials)
    (p : ConnParams) : Bool :=
  if db_type = "databricks" then
    truthyO credentials.token && truthyO p.host && truthyO p.http_path
  else if db_type = "snowflake" then
    truthyO credentials.username && truthyO credentials.password &&
      truthyO (if truthyO credentials.account then credentials.account else p.account) &&
      truthyO p.database
  else
    truthyO credentials.username && truthyO credentials.password &&
      truthyO p.host && truthyO p.database

/-- JSON values, for the stored procedures' json.loads results. Objects are
association lists with the distinct keys json.loads produces. -/
inductive JVal where
  | jnull
  | jbool (b : Bool)
  | jint (n : Int)
  | jstr (s : String)
  | jarr (elems : List JVal)
  | jobj (fields : List (String × JVal))

/-- Dict lookup on a parsed JSON object (keys are distinct). -/
def jlookup (fields : List (String × JVal)) (k : String) : Option JVal :=
  match fields with
  | [] => none
  | (k₁, v) :: rest => if k₁ = k then some v else jlookup rest k

/-- Python isinstance(v, int) on a JSON value: True for ints and, as in
Python, for booleans. -/
def isPyInt : JVal → Bool
  | .jint _ => true
  | .jbool _ => true
  | _ => false

/-- Whether an optional JSON value is present and a dict. -/
def isJObjOpt : Option JVal → Bool
  | some (.jobj _) => true
  | _ => false

/-- Whether an optional JSON value is present and a Python int. -/
def pyIntAt : Option JVal → Bool
  | some v => isPyInt v
  | none => false

/-- The input-shape dispatch of calculate_effort_sp
(calculate_effort_sp.py lines 42-61): none models a json.JSONDecodeError;
a parsed dict yields the dict under total_objects when that key holds a
dict, else the top-level dict itself when its tables key holds an int
(booleans count, as in Python), else the ValueError message; a parsed
non-dict raises on .get and lands in the generic handler. The ok payload is
the counts dict handed on to calculate_migration_effort. -/
def calculate_effort_sp_dispatch (parsed : Option JVal) :
    Except String (List (String × JVal)) :=
  match parsed with
  | none => .error "Invalid JSON in analysis_results_json"
  | some (.jobj fields) =>
    match jlookup fields "total_objects" with
    | some (.jobj tfields) => .ok tfields
    | _ =>
      if pyIntAt (jlookup fields "tables") then .ok fields
      else .error "Invalid analysis_results_json: 'total_objects' key with object counts dictionary is missing or not a dict."
  | some _ => .error "An unexpected error occurred in calculate_effort_sp"

/-- The contribution of one input dict entry to total_hours: count times
multiplier when the object type is in EFFORT_MULTIPLIERS, nothing
otherwise. -/
def multContribution (p : String × Int) : Int :=
  match EFFORT_MULTIPLIERS p.1 with
  | some m => p.2 * m
  | none => 0

/-- The object_efforts entry an input dict entry produces, if any. -/
def effortEntry (p : String × Int) : Option (String × ObjectEffort) :=
  (EFFORT_MULTIPLIERS p.1).map fun m => (p.1, ⟨p.2, m, p.2 * m⟩)

/-- A live connection on which every catalog query succeeds with count 1 and
one schema named public, used to instantiate the universally quantified
theorems at a concrete input. -/
def constDB : DBConn where
  schemaList := fun _ => .ok ["public"]
  currentSchema := .ok (some "app")
  countQuery := fun _ => .ok 1

/-- A connection whose teradata views query raises a driver error after the
tables query returned 7, exercising the partial-counts path. -/
def failingViewsDB : DBConn where
  schemaList := fun _ => .ok ["public"]
  currentSchema := .ok none
  countQuery := fun q =>
    match q with
    | .tdTables _ => .ok 7
    | .tdViews _ => .error "boom"
    | _ => .ok 1

/-- Credentials holding only a databricks token. -/
def dbxTokenOnlyCreds : Credentials := ⟨none, none, some "dapi-token", none⟩

/-- Connection params holding an http_path but no host. -/
def dbxNoHostParams : ConnParams :=
  ⟨some "DBX_SECRET", none, none, none, some "/sql/1.0/warehouses/abc", none, none, none, none⟩

/-- Snowflake-source credentials with a username and an account but no
password. -/
def sfNoPasswordCreds : Credentials := ⟨some "svc_user", none, none, some "xy12345"⟩

/-- Connection params naming only a database, as a snowflake source needs
per the claim. -/
def sfDatabaseOnlyParams : ConnParams :=
  ⟨some "SF_SECRET", none, none, some "ANALYTICS", none, none, none, none, none⟩

/-- Complete postgresql credentials. -/
def pgFullCreds : Credentials := ⟨some "postgres", some "pw", none, none⟩

/-- Complete postgresql connection params; the port is absent, which the
source treats as optional. -/
def pgFullParams : ConnParams :=
  ⟨some "PG_SECRET", some "localhost", none, some "dvdrental", none, none,
   some "public", none, none⟩

theorem effort_foldl_spec (l : List (String × Int)) :
    ∀ es h, (l.foldl effortStep (es, h)).2 = h + (l.map multContribution).sum ∧
      (l.foldl effortStep (es, h)).1 = es ++ l.filterMap effortEntry := by
  induction l with
  | nil => intro es h; simp
  | cons p t ih =>
    intro es h
    cases hm : EFFORT_MULTIPLIERS p.1 with
    | none =>
      have h1 : effortStep (es, h) p = (es, h) := by simp [effortStep, hm]
      have h2 : multContribution p = 0 := by simp [multContribution, hm]
      have h3 : effortEntry p = none := by simp [effortEntry, hm]
      simpa [h1, h2, h3] using ih es h
    | some m =>
      have h1 : effortStep (es, h) p
          = (es ++ [(p.1, ⟨p.2, m, p.2 * m⟩)], h + p.2 * m) := by
        simp [effortStep, hm]
      have h2 : multContribution p = p.2 * m := by simp [multContribution, hm]
      have h3 : effortEntry p = some (p.1, ⟨p.2, m, p.2 * m⟩) := by
        simp [effortEntry, hm]
      obtain ⟨ih1, ih2⟩ := ih (es ++ [(p.1, ⟨p.2, m, p.2 * m⟩)]) (h + p.2 * m)
      constructor
      · simp only [List.foldl_cons, h1, ih1, List.map_cons, List.sum_cons]
        rw [h2]; ring
      · simp only [List.foldl_cons, h1, ih2, List.filterMap_cons, h3]
        simp

theorem effortEntry_sum (l : List (String × Int)) :
    ((l.filterMap effortEntry).map (fun q => q.2.total_hours)).sum
      = (l.map multContribution).sum := by
  induction l with
  | nil => simp
  | cons p t ih =>
    cases hm : EFFORT_MULTIPLIERS p.1 with
    | none =>
      have h2 : multContribution p = 0 := by simp [multContribution, hm]
      have h3 : effortEntry p = none := by simp [effortEntry, hm]
      simp [h2, h3, ih]
    | some m =>
      have h2 : multContribution p = p.2 * m := by simp [multContribution, hm]
      have h3 : effortEntry p = some (p.1, ⟨p.2, m, p.2 * m⟩) := by
        simp [effortEntry, hm]
      simp [h2, h3, ih]

/-- C1: for every counts dictionary, calculate_migration_effort returns
total_hours equal to the sum, over the object types present in both the
counts and the EFFORT_MULTIPLIERS table, of count times multiplier; object
types absent from the table contribute nothing (multContribution is 0 there)
and cause no error; and total_hours equals the sum of the per-type
total_hours entries of the returned object_efforts map. -/
theorem calc_effort_total_hours_spec (source_type target_type : String)
    (objects : List (String × Int)) :
    (calculate_migration_effort source_type target_type objects).total_hours
      = (objects.map multContribution).sum ∧
    (calculate_migration_effort source_type target_type objects).total_hours
      = ((calculate_migration_effort source_type target_type objects).object_efforts.map
          (fun q => q.2.total_hours)).sum := by
  obtain ⟨h1, h2⟩ := effort_foldl_spec objects [] 0
  have ht : (calculate_migration_effort source_type target_type objects).total_hours
      = (objects.foldl effortStep ([], 0)).2 := rfl
  have ho : (calculate_migration_effort source_type target_type objects).object_efforts
      = (objects.foldl effortStep ([], 0)).1 := rfl
  refine ⟨?_, ?_⟩
  · rw [ht, h1]; ring
  · rw [ht, ho, h1, h2]
    simp [effortEntry_sum]

/-- C2: the complexity tier is the high-to-low step function of total_hours
(at least 200 gives High, at least 100 but below 200 gives Medium, below 100
gives Low); the boundary values 99, 100, 199, 200 classify as Low, Medium,
Medium, High; the tier calculate_migration_effort returns is exactly this
function of its total_hours; and the sample input with 100 tables, 50 views,
20 procedures and 10 functions yields total_hours 360 and tier High. -/
theorem complexity_tier_spec (th : Int) :
    ((complexityFor th = "High" ↔ 200 ≤ th) ∧
     (complexityFor th = "Medium" ↔ 100 ≤ th ∧ th < 200) ∧
     (complexityFor th = "Low" ↔ th < 100)) ∧
    (complexityFor 99 = "Low" ∧ complexityFor 100 = "Medium" ∧
     complexityFor 199 = "Medium" ∧ complexityFor 200 = "High") ∧
    (∀ source_type target_type objects,
      (calculate_migration_effort source_type target_type objects).complexity
        = complexityFor
            (calculate_migration_effort source_type target_type objects).total_hours) ∧
    ((calculate_migration_effort "teradata" "snowflake"
        [("tables", 100), ("views", 50), ("procedures", 20), ("functions", 10)]).total_hours
        = 360 ∧
     (calculate_migration_effort "teradata" "snowflake"
        [("tables", 100), ("views", 50), ("procedures", 20), ("functions", 10)]).complexity
        = "High") := by
  have e1 : COMPLEXITY_THRESHOLDS "High" = 200 := rfl
  have e2 : COMPLEXITY_THRESHOLDS "Medium" = 100 := rfl
  refine ⟨⟨?_, ?_, ?_⟩, ⟨by decide, by decide, by decide, by decide⟩,
    fun source_type target_type objects => rfl, by decide, by decide⟩
  · unfold complexityFor
    rw [e1, e2]
    by_cases hg : th ≥ 200
    · rw [if_pos hg]
      exact ⟨fun _ => hg, fun _ => rfl⟩
    · rw [if_neg hg]
      by_cases hm : th ≥ 100
      · rw [if_pos hm]
        exact ⟨fun hh => absurd hh (by decide), fun hh => (hg hh).elim⟩
      · rw [if_neg hm]
        exact ⟨fun hh => absurd hh (by decide), fun hh => (hg hh).elim⟩
  · unfold complexityFor
    rw [e1, e2]
    by_cases hg : th ≥ 200
    · rw [if_pos hg]
      refine ⟨fun hh => absurd hh (by decide), fun hh => ?_⟩
      exact absurd hg (by omega)
    · rw [if_neg hg]
      by_cases hm : th ≥ 100
      · rw [if_pos hm]
        exact ⟨fun _ => ⟨hm, by omega⟩, fun _ => rfl⟩
      · rw [if_neg hm]
        refine ⟨fun hh => absurd hh (by decide), fun hh => ?_⟩
        exact absurd hh.1 hm
  · unfold complexityFor
    rw [e1, e2]
    by_cases hg : th ≥ 200
    · rw [if_pos hg]
      refine ⟨fun hh => absurd hh (by decide), fun hh => ?_⟩
      exact absurd hg (by omega)
    · rw [if_neg hg]
      by_cases hm : th ≥ 100
      · rw [if_pos hm]
        refine ⟨fun hh => absurd hh (by decide), fun hh => ?_⟩
        exact absurd hm (by omega)
      · rw [if_neg hm]
        exact ⟨fun _ => by omega, fun _ => rfl⟩

/-- C7: for every source and target kind, the risks (respectively
recommendations) list generated at complexity High equals the list generated
at any non-High complexity with exactly the three fixed High-complexity
entries appended at the end. -/
theorem high_complexity_append_spec (source_type target_type complexity : String)
    (h : complexity ≠ "High") :
    generate_risks source_type target_type "High"
        = generate_risks source_type target_type complexity ++ highComplexityRisks ∧
    generate_recommendations source_type target_type "High"
        = generate_recommendations source_type target_type complexity
            ++ highComplexityRecommendations ∧
    highComplexityRisks.length = 3 ∧ highComplexityRecommendations.length = 3 := by
  refine ⟨?_, ?_, rfl, rfl⟩ <;>
    simp [generate_risks, generate_recommendations, h, List.append_assoc]

theorem high_complexity_append_spec_witness :
    (generate_risks "oracle" "snowflake" "High"
        = generate_risks "oracle" "snowflake" "Low" ++ highComplexityRisks ∧
     generate_recommendations "oracle" "snowflake" "High"
        = generate_recommendations "oracle" "snowflake" "Low"
            ++ highComplexityRecommendations ∧
     highComplexityRisks.length = 3 ∧ highComplexityRecommendations.length = 3) :=
  high_complexity_append_spec "oracle" "snowflake" "Low" (by decide)

/-- C9: a null connection makes fetch_object_counts return the fixed
fallback counts 10 tables, 5 views, 2 procedures, 3 functions with an empty
schemas_summary and no error, and calculate_migration_effort on those counts
yields total_hours 42 and complexity Low. -/
theorem null_connection_fallback_spec
    (db_type db_name schema_name source_type target_type : String) :
    fetch_object_counts none db_type db_name schema_name
      = ⟨⟨10, 5, 2, 3⟩, [], none⟩ ∧
    (calculate_migration_effort source_type target_type
        [("tables", 10), ("views", 5), ("procedures", 2), ("functions", 3)]).total_hours
      = 42 ∧
    (calculate_migration_effort source_type target_type
        [("tables", 10), ("views", 5), ("procedures", 2), ("functions", 3)]).complexity
      = "Low" :=
  ⟨rfl, rfl, rfl⟩

theorem addCounts_zero_left (c : Counts) : addCounts zeroCounts c = c := by
  cases c; simp [addCounts, zeroCounts]

theorem addCounts_zero_right (c : Counts) : addCounts c zeroCounts = c := by
  cases c; simp [addCounts, zeroCounts]

theorem addCounts_assoc (a b c : Counts) :
    addCounts (addCounts a b) c = addCounts a (addCounts b c) := by
  cases a; cases b; cases c; simp [addCounts]; omega

theorem pgLoop_agg_spec (db : DBConn) :
    ∀ (l : List String) (c : Counts) (s : List SchemaSummary),
      (pgLoop db true l c s).error = none →
      ∃ extra : List SchemaSummary,
        (pgLoop db true l c s).schemas_summary = s ++ extra ∧
        (pgLoop db true l c s).total_objects
          = addCounts c (sumCounts (extra.map SchemaSummary.counts)) := by
  intro l
  induction l with
  | nil =>
    intro c s _
    exact ⟨[], by simp [pgLoop], by simp [pgLoop, sumCounts, addCounts_zero_right]⟩
  | cons a t ih =>
    intro c s herr
    cases hq : pgSchemaCounts db a with
    | mk sc o =>
      cases o with
      | some e =>
        rw [show pgLoop db true (a :: t) c s = ⟨c, s, some e⟩ by
          simp [pgLoop, hq]] at herr
        exact absurd herr (by simp)
      | none =>
        have hstep : pgLoop db true (a :: t) c s
            = pgLoop db true t (addCounts c sc) (s ++ [⟨a, sc⟩]) := by
          simp [pgLoop, hq]
        rw [hstep] at herr ⊢
        obtain ⟨extra, h1, h2⟩ := ih (addCounts c sc) (s ++ [⟨a, sc⟩]) herr
        refine ⟨⟨a, sc⟩ :: extra, ?_, ?_⟩
        · rw [h1]; simp
        · rw [h2]
          simp [sumCounts, addCounts_assoc]

theorem pgLoop_single_noagg (db : DBConn) (a : String) (c0 : Counts)
    (s0 : List SchemaSummary)
    (herr : (pgLoop db false [a] c0 s0).error = none) :
    ∃ sc, pgLoop db false [a] c0 s0 = ⟨sc, s0 ++ [⟨a, sc⟩], none⟩ := by
  cases hq : pgSchemaCounts db a with
  | mk sc o =>
    cases o with
    | some e =>
      rw [show pgLoop db false [a] c0 s0 = ⟨c0, s0, some e⟩ by
        simp [pgLoop, hq]] at herr
      exact absurd herr (by simp)
    | none =>
      exact ⟨sc, by simp [pgLoop, hq]⟩

theorem fetchPg_spec (db : DBConn) (sn : String)
    (herr : (fetchPg db sn).error = none) :
    (1 < (fetchPg db sn).schemas_summary.length →
      (fetchPg db sn).total_objects
        = sumCounts ((fetchPg db sn).schemas_summary.map SchemaSummary.counts)) ∧
    (∀ s, (fetchPg db sn).schemas_summary = [s] →
      (fetchPg db sn).total_objects = s.counts) := by
  cases hl : pgSchemasToQuery db sn with
  | error e =>
    rw [show fetchPg db sn = ⟨zeroCounts, [], some e⟩ by simp [fetchPg, hl]] at herr
    exact absurd herr (by simp)
  | ok schemas =>
    by_cases hemp : schemas.isEmpty
    · rw [show fetchPg db sn = ⟨zeroCounts, [], none⟩ by simp [fetchPg, hl, hemp]]
      exact ⟨by simp, by simp⟩
    · have hdef : fetchPg db sn
          = pgLoop db (!truthy sn || decide (1 < schemas.length)) schemas zeroCounts [] := by
        simp [fetchPg, hl, hemp]
      rw [hdef] at herr ⊢
      cases hagg : (!truthy sn || decide (1 < schemas.length)) with
      | true =>
        rw [hagg] at herr
        obtain ⟨extra, h1, h2⟩ := pgLoop_agg_spec db schemas zeroCounts [] herr
        rw [List.nil_append] at h1
        constructor
        · intro _
          rw [h1, h2, addCounts_zero_left]
        · intro s hs
          rw [h1] at hs
          rw [h2, hs, addCounts_zero_left]
          simp [sumCounts, addCounts_zero_right, hs]
      | false =>
        rw [hagg] at herr
        have hone : schemas.length ≤ 1 := by
          rcases Bool.or_eq_false_iff.mp hagg with ⟨-, h2⟩
          simpa using of_decide_eq_false h2
        match schemas, hemp, hone with
        | [a], _, _ =>
          obtain ⟨sc, hres⟩ := pgLoop_single_noagg db a zeroCounts [] herr
          rw [hres]
          refine ⟨by simp, ?_⟩
          intro s hs
          simp at hs
          subst hs
          rfl

theorem fetchTeradata_ok (db : DBConn) (dbn sn : String)
    (herr : (fetchTeradata db dbn sn).error = none) :
    ∃ nm c, fetchTeradata db dbn sn = ⟨c, [⟨nm, c⟩], none⟩ := by
  by_cases ht : truthy (teradataTarget dbn sn)
  · cases hq : tdCounts db (teradataTarget dbn sn) with
    | mk c o =>
      cases o with
      | some e =>
        rw [show fetchTeradata db dbn sn = ⟨c, [], some e⟩ by
          simp [fetchTeradata, ht, hq]] at herr
        exact absurd herr (by simp)
      | none =>
        exact ⟨teradataTarget dbn sn, c, by simp [fetchTeradata, ht, hq]⟩
  · rw [show fetchTeradata db dbn sn
      = ⟨zeroCounts, [], some "Database/Schema name is required for Teradata."⟩ by
      simp [fetchTeradata, ht]] at herr
    exact absurd herr (by simp)

theorem fetchDatabricks_ok (db : DBConn) (dbn sn : String)
    (herr : (fetchDatabricks db dbn sn).error = none) :
    ∃ nm c, fetchDatabricks db dbn sn = ⟨c, [⟨nm, c⟩], none⟩ := by
  by_cases ht : truthy (teradataTarget dbn sn)
  · cases hq : dbxCounts db (teradataTarget dbn sn) with
    | mk c o =>
      cases o with
      | some e =>
        rw [show fetchDatabricks db dbn sn = ⟨c, [], some e⟩ by
          simp [fetchDatabricks, ht, hq]] at herr
        exact absurd herr (by simp)
      | none =>
        exact ⟨teradataTarget dbn sn, c, by simp [fetchDatabricks, ht, hq]⟩
  · rw [show fetchDatabricks db dbn sn
      = ⟨zeroCounts, [], some "Schema (Database) name is required for Databricks."⟩ by
      simp [fetchDatabricks, ht]] at herr
    exact absurd herr (by simp)

theorem fetchOracle_ok (db : DBConn) (sn : String)
    (herr : (fetchOracle db sn).error = none) :
    ∃ nm c, fetchOracle db sn = ⟨c, [⟨nm, c⟩], none⟩ := by
  cases htgt : oracleTarget db sn with
  | none =>
    rw [show fetchOracle db sn = ⟨zeroCounts, [],
        some "Schema name required for Oracle object counting and could not be derived."⟩ by
      simp [fetchOracle, htgt]] at herr
    exact absurd herr (by simp)
  | some owner =>
    cases hq : oraCounts db owner with
    | mk c o =>
      cases o with
      | some e =>
        rw [show fetchOracle db sn = ⟨c, [], some e⟩ by
          simp [fetchOracle, htgt, hq]] at herr
        exact absurd herr (by simp)
      | none =>
        exact ⟨owner, c, by simp [fetchOracle, htgt, hq]⟩

theorem fetchSnowflake_ok (db : DBConn) (dbn sn : String)
    (herr : (fetchSnowflake db dbn sn).error = none) :
    ∃ nm c, fetchSnowflake db dbn sn = ⟨c, [⟨nm, c⟩], none⟩ := by
  by_cases ht : truthy dbn
  · cases hq : sfCounts db dbn (sfSchemaFilter sn) with
    | mk c o =>
      cases o with
      | some e =>
        rw [show fetchSnowflake db dbn sn = ⟨c, [], some e⟩ by
          simp [fetchSnowflake, ht, hq]] at herr
        exact absurd herr (by simp)
      | none =>
        exact ⟨sfSummaryName dbn (sfSchemaFilter sn), c, by
          simp [fetchSnowflake, ht, hq]⟩
  · rw [show fetchSnowflake db dbn sn
      = ⟨zeroCounts, [], some "Database (Catalog) name required for Snowflake."⟩ by
      simp [fetchSnowflake, ht]] at herr
    exact absurd herr (by simp)

/-- C3: an error-free fetch_object_counts result has total_objects equal to
the field-wise sum of the per-schema counts in schemas_summary whenever that
summary has more than one entry, and equal to the single schema's counts
when the summary has exactly one entry; moreover for the teradata,
databricks, oracle and snowflake kinds on a live connection the summary has
exactly one entry whose counts equal total_objects. -/
theorem analysis_totals_invariant (connection : Option DBConn)
    (db_type db_name schema_name : String)
    (herr : (fetch_object_counts connection db_type db_name schema_name).error = none) :
    (1 < (fetch_object_counts connection db_type db_name schema_name).schemas_summary.length →
      (fetch_object_counts connection db_type db_name schema_name).total_objects
        = sumCounts ((fetch_object_counts connection db_type db_name
            schema_name).schemas_summary.map SchemaSummary.counts)) ∧
    (∀ s, (fetch_object_counts connection db_type db_name schema_name).schemas_summary
        = [s] →
      (fetch_object_counts connection db_type db_name schema_name).total_objects
        = s.counts) ∧
    (∀ db, connection = some db →
      db_type ∈ ["teradata", "databricks", "oracle", "snowflake"] →
      ∃ s, (fetch_object_counts connection db_type db_name schema_name).schemas_summary
          = [s] ∧
        (fetch_object_counts connection db_type db_name schema_name).total_objects
          = s.counts) := by
  cases connection with
  | none =>
    refine ⟨by simp [fetch_object_counts], ?_, by simp⟩
    intro s hs
    simp [fetch_object_counts] at hs
  | some db =>
    by_cases h1 : db_type = "postgresql"
    · have hd : fetch_object_counts (some db) db_type db_name schema_name
          = fetchPg db schema_name := by simp [fetch_object_counts, h1]
      rw [hd] at herr ⊢
      obtain ⟨hmany, hone⟩ := fetchPg_spec db schema_name herr
      refine ⟨hmany, hone, ?_⟩
      intro db' _ hmem
      rw [h1] at hmem
      exact absurd hmem (by decide)
    · have hsingle : ∃ nm c, fetch_object_counts (some db) db_type db_name schema_name
          = ⟨c, [⟨nm, c⟩], none⟩ := by
        by_cases h2 : db_type = "teradata"
        · have hd : fetch_object_counts (some db) db_type db_name schema_name
              = fetchTeradata db db_name schema_name := by
            simp [fetch_object_counts, h1, h2]
          rw [hd] at herr ⊢
          exact fetchTeradata_ok db db_name schema_name herr
        · by_cases h3 : db_type = "databricks"
          · have hd : fetch_object_counts (some db) db_type db_name schema_name
                = fetchDatabricks db db_name schema_name := by
              simp [fetch_object_counts, h1, h2, h3]
            rw [hd] at herr ⊢
            exact fetchDatabricks_ok db db_name schema_name herr
          · by_cases h4 : db_type = "oracle"
            · have hd : fetch_object_counts (some db) db_type db_name schema_name
                  = fetchOracle db schema_name := by
                simp [fetch_object_counts, h1, h2, h3, h4]
              rw [hd] at herr ⊢
              exact fetchOracle_ok db schema_name herr
            · by_cases h5 : db_type = "snowflake"
              · have hd : fetch_object_counts (some db) db_type db_name schema_name
                    = fetchSnowflake db db_name schema_name := by
                  simp [fetch_object_counts, h1, h2, h3, h4, h5]
                rw [hd] at herr ⊢
                exact fetchSnowflake_ok db db_name schema_name herr
              · have hd : fetch_object_counts (some db) db_type db_name schema_name
                    = ⟨zeroCounts, [],
                       some ("Object counting not implemented for " ++ db_type ++ ".")⟩ := by
                  simp [fetch_object_counts, h1, h2, h3, h4, h5]
                rw [hd] at herr
                exact absurd herr (by simp)
      obtain ⟨nm, c, hres⟩ := hsingle
      rw [hres]
      refine ⟨by simp, ?_, ?_⟩
      · intro s hs
        simp at hs
        subst hs
        rfl
      · intro db' _ _
        exact ⟨⟨nm, c⟩, rfl, rfl⟩

theorem analysis_totals_invariant_witness :
    (1 < (fetch_object_counts (some constDB) "teradata" "DW" "").schemas_summary.length →
      (fetch_object_counts (some constDB) "teradata" "DW" "").total_objects
        = sumCounts ((fetch_object_counts (some constDB) "teradata" "DW"
            "").schemas_summary.map SchemaSummary.counts)) ∧
    (∀ s, (fetch_object_counts (some constDB) "teradata" "DW" "").schemas_summary = [s] →
      (fetch_object_counts (some constDB) "teradata" "DW" "").total_objects = s.counts) ∧
    (∀ db, (some constDB : Option DBConn) = some db →
      "teradata" ∈ ["teradata", "databricks", "oracle", "snowflake"] →
      ∃ s, (fetch_object_counts (some constDB) "teradata" "DW" "").schemas_summary = [s] ∧
        (fetch_object_counts (some constDB) "teradata" "DW" "").total_objects = s.counts) :=
  analysis_totals_invariant (some constDB) "teradata" "DW" "" (by decide)

/-- C4 (amended): for every source kind and wherever in its query sequence
the failure occurs, a per-query driver error aborts the remaining queries
and surfaces the counts accumulated so far alongside an error field. At the
shared query-runner level (used by all five kinds), a run whose prefix of
queries succeeded and whose next query fails returns exactly the prefix's
accumulated counts paired with the error, independently of every remaining
query. Each of the five kind branches of fetch_object_counts passes such a
failed run's partial counts and error out unchanged: teradata, databricks,
oracle and snowflake return them with an empty summary, and the postgresql
loop returns the totals and summaries of the schemas completed before the
failing schema, aborting the remaining schemas (shown both mid-loop and at
the fetch_object_counts boundary). However, analyze_database_sp maps every
error-bearing fetch result to an error-only response, discarding the
partial counts instead of handing them downstream. -/
theorem partial_counts_on_query_error (db : DBConn) (e : String) :
    (∀ (done : List (CountQuery × (Counts → Int → Counts)))
       (q : CountQuery) (upd : Counts → Int → Counts)
       (rest : List (CountQuery × (Counts → Int → Counts))) (c : Counts),
      (∀ p ∈ done, ∃ n, db.countQuery p.1 = .ok n) →
      db.countQuery q = .error e →
      runCountQueries db (done ++ (q, upd) :: rest) c
        = ((runCountQueries db done c).1, some e)) ∧
    (∀ db_name schema_name,
      truthy (teradataTarget db_name schema_name) = true →
      (tdCounts db (teradataTarget db_name schema_name)).2 = some e →
      fetch_object_counts (some db) "teradata" db_name schema_name
        = ⟨(tdCounts db (teradataTarget db_name schema_name)).1, [], some e⟩) ∧
    (∀ db_name schema_name,
      truthy (teradataTarget db_name schema_name) = true →
      (dbxCounts db (teradataTarget db_name schema_name)).2 = some e →
      fetch_object_counts (some db) "databricks" db_name schema_name
        = ⟨(dbxCounts db (teradataTarget db_name schema_name)).1, [], some e⟩) ∧
    (∀ db_name schema_name owner,
      oracleTarget db schema_name = some owner →
      (oraCounts db owner).2 = some e →
      fetch_object_counts (some db) "oracle" db_name schema_name
        = ⟨(oraCounts db owner).1, [], some e⟩) ∧
    (∀ db_name schema_name,
      truthy db_name = true →
      (sfCounts db db_name (sfSchemaFilter schema_name)).2 = some e →
      fetch_object_counts (some db) "snowflake" db_name schema_name
        = ⟨(sfCounts db db_name (sfSchemaFilter schema_name)).1, [], some e⟩) ∧
    (∀ (aggregate : Bool) (s : String) (rest : List String)
       (counts : Counts) (summaries : List SchemaSummary),
      (pgSchemaCounts db s).2 = some e →
      pgLoop db aggregate (s :: rest) counts summaries
        = ⟨counts, summaries, some e⟩) ∧
    (∀ db_name schema_name s rest,
      pgSchemasToQuery db schema_name = .ok (s :: rest) →
      (pgSchemaCounts db s).2 = some e →
      fetch_object_counts (some db) "postgresql" db_name schema_name
        = ⟨zeroCounts, [], some e⟩) ∧
    (∀ (r : FetchResult) (msg : String), r.error = some msg →
      analyzeHandleCounts r = .err ("Error fetching object counts: " ++ msg)) := by
  refine ⟨?_, ?_, ?_, ?_, ?_, ?_, ?_, ?_⟩
  · intro done
    induction done with
    | nil =>
      intro q upd rest c _ hq
      simp [runCountQueries, hq]
    | cons p done' ih =>
      intro q upd rest c hdone hq
      obtain ⟨n, hn⟩ := hdone p (by simp)
      cases p with
      | mk q₁ u₁ =>
        simp only [List.cons_append, runCountQueries, hn]
        exact ih q upd rest (u₁ c n)
          (fun p hp => hdone p (List.mem_cons_of_mem _ hp)) hq
  · intro db_name schema_name ht h₂
    cases hq : tdCounts db (teradataTarget db_name schema_name) with
    | mk c o =>
      rw [hq] at h₂
      have ho : o = some e := h₂
      subst ho
      simp [fetch_object_counts, fetchTeradata, ht, hq]
  · intro db_name schema_name ht h₂
    cases hq : dbxCounts db (teradataTarget db_name schema_name) with
    | mk c o =>
      rw [hq] at h₂
      have ho : o = some e := h₂
      subst ho
      simp [fetch_object_counts, fetchDatabricks, ht, hq]
  · intro db_name schema_name owner htgt h₂
    cases hq : oraCounts db owner with
    | mk c o =>
      rw [hq] at h₂
      have ho : o = some e := h₂
      subst ho
      simp [fetch_object_counts, fetchOracle, htgt, hq]
  · intro db_name schema_name ht h₂
    cases hq : sfCounts db db_name (sfSchemaFilter schema_name) with
    | mk c o =>
      rw [hq] at h₂
      have ho : o = some e := h₂
      subst ho
      simp [fetch_object_counts, fetchSnowflake, ht, hq]
  · intro aggregate s rest counts summaries h₂
    cases hq : pgSchemaCounts db s with
    | mk c o =>
      rw [hq] at h₂
      have ho : o = some e := h₂
      subst ho
      simp [pgLoop, hq]
  · intro db_name schema_name s rest hsl h₂
    cases hq : pgSchemaCounts db s with
    | mk c o =>
      rw [hq] at h₂
      have ho : o = some e := h₂
      subst ho
      simp [fetch_object_counts, fetchPg, hsl, pgLoop, hq]
  · intro r msg hr
    simp [analyzeHandleCounts, hr]

/-- C4 counterexample: on a connection whose second teradata query fails,
fetch_object_counts does return the partial counts (7 tables) alongside the
error, but analyze_database_sp turns that result into an error-only
response, so no output of the procedure carries the partial counts — the
claim that partial counts are surfaced to downstream stages and the
pipeline proceeds with partial data is false. -/
theorem partial_counts_dropped_counterexample :
    (fetch_object_counts (some failingViewsDB) "teradata" "DW" "").total_objects
        = ⟨7, 0, 0, 0⟩ ∧
    (fetch_object_counts (some failingViewsDB) "teradata" "DW" "").error = some "boom" ∧
    analyzeHandleCounts (fetch_object_counts (some failingViewsDB) "teradata" "DW" "")
        = .err "Error fetching object counts: boom" ∧
    (∀ r, analyzeHandleCounts (fetch_object_counts (some failingViewsDB) "teradata" "DW" "")
        ≠ .ok r) := by
  refine ⟨by decide, by decide, by decide, ?_⟩
  intro r h
  rw [show analyzeHandleCounts (fetch_object_counts (some failingViewsDB) "teradata" "DW" "")
      = AnalyzeOutput.err "Error fetching object counts: boom" from by decide] at h
  exact AnalyzeOutput.noConfusion h

/-- C5: for every db_type outside the five supported kinds, a call with a
live connection returns (rather than raises) a result whose four counts are
all zero and which carries the not-implemented error field. -/
theorem unknown_kind_result (db : DBConn) (db_type db_name schema_name : String)
    (h : db_type ∉ ["postgresql", "teradata", "databricks", "oracle", "snowflake"]) :
    fetch_object_counts (some db) db_type db_name schema_name
      = ⟨⟨0, 0, 0, 0⟩, [],
         some ("Object counting not implemented for " ++ db_type ++ ".")⟩ := by
  simp only [List.mem_cons, List.not_mem_nil, or_false, not_or] at h
  obtain ⟨h1, h2, h3, h4, h5⟩ := h
  simp [fetch_object_counts, h1, h2, h3, h4, h5, zeroCounts]

theorem unknown_kind_result_witness :
    fetch_object_counts (some constDB) "sqlserver" "db" ""
      = ⟨⟨0, 0, 0, 0⟩, [],
         some ("Object counting not implemented for " ++ "sqlserver" ++ ".")⟩ :=
  unknown_kind_result constDB "sqlserver" "db" "" (by decide)

theorem combined_take_filter_spec (sp co : List String) (hsp : sp.Nodup)
    (hco : co.Nodup) :
    (sp.take 3 ++ (co.filter (fun b => decide (b ∉ sp))).take 4).length ≤ 7 ∧
    (sp.take 3 ++ (co.filter (fun b => decide (b ∉ sp))).take 4).Nodup := by
  constructor
  · rw [List.length_append]
    have l1 : (sp.take 3).length ≤ 3 := by rw [List.length_take]; omega
    have l2 : ((co.filter (fun b => decide (b ∉ sp))).take 4).length ≤ 4 := by
      rw [List.length_take]; omega
    omega
  · refine List.Nodup.append ?_ ?_ ?_
    · exact List.Nodup.sublist (List.take_sublist 3 sp) hsp
    · exact List.Nodup.sublist (List.take_sublist 4 _) (hco.filter _)
    · intro a ha hb
      have ha₁ : a ∈ sp := List.mem_of_mem_take ha
      have hb₁ := List.mem_filter.mp (List.mem_of_mem_take hb)
      exact of_decide_eq_true hb₁.2 ha₁

/-- C6: for every source_type, generate_business_value_add returns at most 7
entries with no two literally equal, decomposable as at most 3 entries drawn
from the source-specific list followed by at most 4 entries drawn from the
common baseline list that are not literally present in the source-specific
list. -/
theorem business_value_add_spec (source_type : String) :
    (generate_business_value_add source_type).length ≤ 7 ∧
    (generate_business_value_add source_type).Nodup ∧
    (∃ specific common,
      generate_business_value_add source_type = specific ++ common ∧
      specific.length ≤ 3 ∧ common.length ≤ 4 ∧
      (∀ b ∈ specific, b ∈ source_specific_benefits source_type) ∧
      (∀ b ∈ common, b ∈ common_snowflake_benefits ∧
        b ∉ source_specific_benefits source_type)) := by
  have hsp : (source_specific_benefits source_type).Nodup := by
    unfold source_specific_benefits
    repeat' split
    all_goals decide
  have hco : common_snowflake_benefits.Nodup := by decide
  obtain ⟨hlen, hnd⟩ := combined_take_filter_spec (source_specific_benefits source_type)
    common_snowflake_benefits hsp hco
  refine ⟨hlen, hnd,
    (source_specific_benefits source_type).take 3,
    (common_snowflake_benefits.filter
      (fun b => decide (b ∉ source_specific_benefits source_type))).take 4,
    rfl, ?_, ?_, ?_, ?_⟩
  · rw [List.length_take]; omega
  · rw [List.length_take]; omega
  · intro b hb
    exact List.mem_of_mem_take hb
  · intro b hb
    have hb₁ := List.mem_filter.mp (List.mem_of_mem_take hb)
    exact ⟨hb₁.1, of_decide_eq_true hb₁.2⟩

/-- C8 counterexample: the claim's required-field sets are not the ones the
code enforces. For databricks, params holding an http_path and credentials
holding a token satisfy the claim's requirement, yet the code fails
validation because it also requires a host; for a snowflake source, an
account plus database satisfy the claim's requirement, yet the code fails
validation because it also requires username and password. -/
theorem connector_validation_counterexample :
    claimRequiredFieldsOk "databricks" dbxTokenOnlyCreds dbxNoHostParams = true ∧
    get_source_db_connection (.ok dbxTokenOnlyCreds) "databricks" dbxNoHostParams
      = .validationFail ∧
    claimRequiredFieldsOk "snowflake" sfNoPasswordCreds sfDatabaseOnlyParams = true ∧
    get_source_db_connection (.ok sfNoPasswordCreds) "snowflake" sfDatabaseOnlyParams
      = .validationFail :=
  ⟨by decide, by decide, by decide, by decide⟩

/-- C8 (amended): with a parsable (or absent) port, get_source_db_connection
fails validation exactly when the amended kind-specific required fields are
not all present — databricks requires a token, a host and an http_path; a
snowflake source requires username, password, an account (from the
credentials or the params) and a database name; every other kind requires
username, password, host and database name — and a validation failure means
no driver connect is attempted (the failing run never reaches an
attemptConnect outcome). The source signals the failure by returning None
rather than raising a ValidationError type. -/
theorem connector_validation_spec (credentials : Credentials) (db_type : String)
    (p : ConnParams)
    (hport : (truthyO p.port && ((p.port.getD "").toInt?).isNone) = false) :
    (get_source_db_connection (.ok credentials) db_type p = .validationFail ↔
      amendedRequiredFieldsOk db_type credentials p = false) ∧
    (amendedRequiredFieldsOk db_type credentials p = false →
      ∀ kind, get_source_db_connection (.ok credentials) db_type p
        ≠ .attemptConnect kind) := by
  have hiff : get_source_db_connection (.ok credentials) db_type p = .validationFail ↔
      amendedRequiredFieldsOk db_type credentials p = false := by
    unfold get_source_db_connection amendedRequiredFieldsOk
    simp only [hport, Bool.false_eq_true, if_false]
    by_cases h1 : db_type = "databricks"
    · simp only [if_pos h1]
      cases hb : truthyO credentials.token && truthyO p.host && truthyO p.http_path with
      | false => simp
      | true => simp
    · simp only [if_neg h1]
      by_cases h2 : db_type = "snowflake"
      · simp only [if_pos h2]
        cases hb : truthyO credentials.username && truthyO credentials.password &&
            truthyO (if truthyO credentials.account = true then credentials.account
              else p.account) && truthyO p.database with
        | false => simp [hb]
        | true => simp [hb]
      · simp only [if_neg h2]
        cases hb : truthyO credentials.username && truthyO credentials.password &&
            truthyO p.host && truthyO p.database with
        | false => simp [hb]
        | true =>
          have hd : truthyO p.database = true := by
            simp only [Bool.and_eq_true] at hb
            exact hb.2
          simp only [hb, Bool.not_true, Bool.false_eq_true, if_false]
          by_cases h3 : db_type = "postgresql"
          · simp [if_pos h3]
          · simp only [if_neg h3]
            by_cases h4 : db_type = "oracle"
            · simp [if_pos h4, hd]
            · simp only [if_neg h4]
              by_cases h5 : db_type = "teradata"
              · simp [if_pos h5]
              · simp [if_neg h5]
  refine ⟨hiff, fun haf kind hcontra => ?_⟩
  have h₂ := hiff.mpr haf
  rw [hcontra] at h₂
  exact ConnOutcome.noConfusion h₂

theorem connector_validation_spec_witness :
    ((get_source_db_connection (.ok pgFullCreds) "postgresql" pgFullParams
        = .validationFail ↔
      amendedRequiredFieldsOk "postgresql" pgFullCreds pgFullParams = false) ∧
     (amendedRequiredFieldsOk "postgresql" pgFullCreds pgFullParams = false →
      ∀ kind, get_source_db_connection (.ok pgFullCreds) "postgresql" pgFullParams
        ≠ .attemptConnect kind)) :=
  connector_validation_spec pgFullCreds "postgresql" pgFullParams (by decide)

/-- C10: calculate_effort_sp accepts two input shapes: when the parsed
analysis object has no dict under total_objects but its top level has an
integer tables field, the top-level object itself becomes the counts dict
handed to the estimator; an error result arises exactly when neither shape
matches (pyIntAt also accepting booleans, which Python counts as ints), and
invalid JSON also yields an error result. -/
theorem effort_sp_input_shape_spec :
    (∀ fields n, isJObjOpt (jlookup fields "total_objects") = false →
        jlookup fields "tables" = some (.jint n) →
        calculate_effort_sp_dispatch (some (.jobj fields)) = .ok fields) ∧
    (∀ fields, (∃ e, calculate_effort_sp_dispatch (some (.jobj fields)) = .error e) ↔
      (isJObjOpt (jlookup fields "total_objects") = false ∧
        pyIntAt (jlookup fields "tables") = false)) ∧
    (∃ e, calculate_effort_sp_dispatch none = .error e) := by
  refine ⟨?_, ?_, ⟨_, rfl⟩⟩
  · intro fields n hobj htab
    have hp : pyIntAt (jlookup fields "tables") = true := by
      rw [htab]; rfl
    cases hlo : jlookup fields "total_objects" with
    | none => simp [calculate_effort_sp_dispatch, hlo, hp]
    | some v =>
      cases v with
      | jobj tf => rw [hlo] at hobj; exact absurd hobj (by simp [isJObjOpt])
      | jnull => simp [calculate_effort_sp_dispatch, hlo, hp]
      | jbool b => simp [calculate_effort_sp_dispatch, hlo, hp]
      | jint m => simp [calculate_effort_sp_dispatch, hlo, hp]
      | jstr s => simp [calculate_effort_sp_dispatch, hlo, hp]
      | jarr xs => simp [calculate_effort_sp_dispatch, hlo, hp]
  · intro fields
    cases hlo : jlookup fields "total_objects" with
    | some v =>
      cases v with
      | jobj tf => simp [calculate_effort_sp_dispatch, hlo, isJObjOpt]
      | jnull =>
        cases hp : pyIntAt (jlookup fields "tables") with
        | false => simp [calculate_effort_sp_dispatch, hlo, hp, isJObjOpt]
        | true => simp [calculate_effort_sp_dispatch, hlo, hp, isJObjOpt]
      | jbool b =>
        cases hp : pyIntAt (jlookup fields "tables") with
        | false => simp [calculate_effort_sp_dispatch, hlo, hp, isJObjOpt]
        | true => simp [calculate_effort_sp_dispatch, hlo, hp, isJObjOpt]
      | jint m =>
        cases hp : pyIntAt (jlookup fields "tables") with
        | false => simp [calculate_effort_sp_dispatch, hlo, hp, isJObjOpt]
        | true => simp [calculate_effort_sp_dispatch, hlo, hp, isJObjOpt]
      | jstr s =>
        cases hp : pyIntAt (jlookup fields "tables") with
        | false => simp [calculate_effort_sp_dispatch, hlo, hp, isJObjOpt]
        | true => simp [calculate_effort_sp_dispatch, hlo, hp, isJObjOpt]
      | jarr xs =>
        cases hp : pyIntAt (jlookup fields "tables") with
        | false => simp [calculate_effort_sp_dispatch, hlo, hp, isJObjOpt]
        | true => simp [calculate_effort_sp_dispatch, hlo, hp, isJObjOpt]
    | none =>
      cases hp : pyIntAt (jlookup fields "tables") with
      | false => simp [calculate_effort_sp_dispatch, hlo, hp, isJObjOpt]
      | true => simp [calculate_effort_sp_dispatch, hlo, hp, isJObjOpt]

end SnowMigrate
